import Mathlib

/-!
Shallow embedding of the earnlayer-sdk-demo message-orchestration core:
the two provider adapters (ToolhouseProvider, OpenRouterProvider), the
orchestration service (ChatApplicationService), the ad-search component
(SearchAdsUseCase / useAdSearch), the session initializer
(InitializeConversationUseCase) and the provider factory (ProviderFactory).

Remote calls are modelled as oracles carried in an environment record:
each oracle is the outcome the underlying transport would produce for the
one call the code makes to it.  Wall-clock fields (timestamps, response
times) and logging are outside the model; every other branch of the
translated functions follows the TypeScript source.
-/

namespace SdkDemo

/-- Message roles (AITypes.ts): role is one of user, assistant, system. -/
inductive Role where
  | user
  | assistant
  | system
deriving DecidableEq

/-- The keys of the free-form AIMessage metadata map that the providers
read (conversationId, creatorId); other keys are never branched on. -/
structure MessageMetadata where
  conversationId : Option String := none
  creatorId : Option String := none
deriving DecidableEq

/-- AIMessage (AITypes.ts).  The timestamp field is wall-clock only and
never branched on, so it is not part of the embedding. -/
structure AIMessage where
  id : String
  content : String
  role : Role
  metadata : MessageMetadata := {}
deriving DecidableEq

/-- AIResponse (AITypes.ts), reduced to the fields the claims mention;
the generated response id and the metadata map are never branched on. -/
structure AIResponse where
  content : String
  conversationId : String
  source : String
deriving DecidableEq

/-- JavaScript error values distinguished by class, with the cause chain
preserved (ProviderTypes.ts error classes and the use-case error classes). -/
inductive JsError where
  | plain (message : String)
  | providerRequest (provider : String) (message : String)
  | providerInit (provider : String) (message : String)
  | adSearchError (message : String) (cause : Option JsError)
  | conversationError (message : String) (cause : Option JsError)

/-- The .message property of each error value, as built by the
corresponding constructor in the source. -/
def JsError.message : JsError → String
  | .plain m => m
  | .providerRequest p m => "Provider " ++ p ++ " request failed: " ++ m
  | .providerInit p m => "Failed to initialize provider " ++ p ++ ": " ++ m
  | .adSearchError m _ => m
  | .conversationError m _ => m

/-- True exactly for ProviderRequestError values (the RequestError class
of the error taxonomy). -/
def JsError.isProviderRequest : JsError → Bool
  | .providerRequest _ _ => true
  | _ => false

/-- Ad record (SearchAdsUseCase, part_006). -/
structure Ad where
  id : String
  title : String
  description : String
  url : String
  ad_type : String
  similarity : Rat
deriving DecidableEq

/-- One character of the case-insensitive hex class of the UUID regex. -/
def isHexChar (c : Char) : Bool :=
  c.isDigit || ('a' ≤ c && c ≤ 'f') || ('A' ≤ c && c ≤ 'F')

/-- Split a character list at every occurrence of a separator; the
groups contain no separator and there is one more group than there are
separators. -/
def splitOnChar (sep : Char) : List Char → List (List Char)
  | [] => [[]]
  | c :: rest =>
    if c = sep then
      [] :: splitOnChar sep rest
    else
      match splitOnChar sep rest with
      | g :: gs => (c :: g) :: gs
      | [] => [[c]]

/-- ToolhouseProvider.isValidConversationId: the canonical 8-4-4-4-12
UUID shape, case-insensitive (the regex in ToolhouseProvider.ts line
243): five hyphen-separated groups of hex characters of those lengths. -/
def isValidConversationId (conversationId : String) : Bool :=
  match splitOnChar '-' conversationId.data with
  | [a, b, c, d, e] =>
      a.length == 8 && b.length == 4 && c.length == 4 && d.length == 4 &&
      e.length == 12 && (a ++ b ++ c ++ d ++ e).all isHexChar
  | _ => false

/-- An outgoing chat-completion message: the role/content pairs put in
the request messages array (OpenRouterProvider.buildMessagesArray). -/
structure OutMessage where
  role : Role
  content : String
deriving DecidableEq

/-- Network calls an adapter can make, recorded as a trace. -/
inductive NetCall where
  | mcpSearch (queries : List String) (creatorId : String) (conversationId : String)
  | agentCall (message : String)
  | openRouterChat (model : String) (messages : List OutMessage)
deriving DecidableEq

/-- JavaScript String.trim, modelled over the character list (whitespace
stripped from both ends); the Unicode whitespace class is approximated
by Char.isWhitespace. -/
def jsTrim (s : String) : String :=
  ⟨((s.data.dropWhile Char.isWhitespace).reverse.dropWhile Char.isWhitespace).reverse⟩

/-- BaseAIProvider.validateMessage (part_012): empty and whitespace-only
content is rejected.  The role check of the source is vacuous here
because Role is an enumeration. -/
def validateMessage (message : AIMessage) : Option JsError :=
  if jsTrim message.content = "" then
    some (.plain "Message content cannot be empty")
  else
    none

/-- MCP search response shape read by the Toolhouse provider: optional
content context plus an ads list (the fields accessed in the source). -/
structure MCPResponse where
  content : Option String := none
  ads : List Ad := []
deriving DecidableEq

/-- ToolhouseProvider state: whether initialize succeeded (config and
MCP client present), the configured agent endpoint, the runId slot (never
assigned in the source) and the conversation history. -/
structure ToolhouseState where
  initialized : Bool
  agentUrl : Option String := none
  runId : Option String := none
  conversationHistory : List AIMessage := []
deriving DecidableEq

/-- Oracles for the two remote calls the Toolhouse provider makes, plus
the locally generated fallback conversation id.  mcpOutcome is none when
the MCP call resolves with a non-object payload. -/
structure ToolhouseEnv where
  mcpOutcome : Except JsError (Option MCPResponse)
  agentOutcome : Except JsError String
  generatedConversationId : String

namespace ToolhouseProvider

/-- ToolhouseProvider.searchMCPContent: requires metadata.conversationId
to be present and UUID-shaped before the MCP network call is made; a
non-object response payload is a format error.  Returns the result and
the network calls made. -/
def searchMCPContent (env : ToolhouseEnv) (message : AIMessage) :
    Except JsError MCPResponse × List NetCall :=
  match message.metadata.conversationId with
  | none => (.error (.plain "Conversation ID is required for MCP integration"), [])
  | some cid =>
    if isValidConversationId cid = false then
      (.error (.plain "Invalid conversation ID format"), [])
    else
      let call := NetCall.mcpSearch [message.content]
        (message.metadata.creatorId.getD "default") cid
      match env.mcpOutcome with
      | .error e => (.error e, [call])
      | .ok none => (.error (.plain "Invalid MCP response format"), [call])
      | .ok (some resp) => (.ok resp, [call])

/-- JSON.stringify of a string value, as used on the MCP content context;
escaping of special characters inside the string is not modelled. -/
def jsonStringifyString (s : String) : String := "\"" ++ s ++ "\""

/-- One numbered resource line of the ad block, with the optional Link
line (ToolhouseProvider.generateAIResponse). -/
def adResourceLine (index : Nat) (ad : Ad) : String :=
  toString (index + 1) ++ ". " ++ ad.title ++ " - " ++ ad.description ++ "\n" ++
  (if ad.url = "" then "" else "   Link: " ++ ad.url ++ "\n")

/-- The enhanced prompt built from the original text, the MCP content
context and the numbered ad list (ToolhouseProvider.generateAIResponse). -/
def buildEnhanced (message : AIMessage) (resp : MCPResponse) : String :=
  let mcpContext := resp.content.getD ""
  let relevantAds := resp.ads
  if mcpContext = "" ∧ relevantAds.length = 0 then
    message.content
  else
    message.content ++ "\n\nRelevant context and resources:\n" ++
    (if mcpContext = "" then "" else
      "MCP Content: " ++ jsonStringifyString mcpContext ++ "\n\n") ++
    (if relevantAds.length = 0 then "" else
      "Available resources:\n" ++
      String.join (relevantAds.enum.map (fun p => adResourceLine p.1 p.2)) ++ "\n") ++
    "Please provide a helpful response incorporating this context and any relevant resources."

/-- The templated fallback response used when the agent call fails
(the catch branch of ToolhouseProvider.generateAIResponse). -/
def templateResponse (message : AIMessage) (resp : MCPResponse) : String :=
  let mcpContext := resp.content.getD ""
  let relevantAds := resp.ads
  "I understand you're asking about: \"" ++ message.content ++ "\"\n\n" ++
  (if mcpContext = "" then "" else
    "Based on relevant information: " ++ jsonStringifyString mcpContext ++ "\n\n") ++
  (if relevantAds.length = 0 then
    "I don't have specific resources for this topic, but I'm happy to help with general information."
  else
    "Here are some relevant resources:\n" ++
    String.join (relevantAds.enum.map (fun p => adResourceLine p.1 p.2)))

/-- ToolhouseProvider.generateAIResponse: build the enhanced prompt and
call the agent endpoint; any failure of the agent call (missing agent
URL, network failure, bad status) is caught internally and replaced by
the templated response.  Returns the content and the network calls made. -/
def generateAIResponse (st : ToolhouseState) (env : ToolhouseEnv)
    (message : AIMessage) (resp : MCPResponse) : String × List NetCall :=
  match st.agentUrl with
  | none => (templateResponse message resp, [])
  | some _ =>
    let enhanced := buildEnhanced message resp
    match env.agentOutcome with
    | .ok text => (text, [.agentCall enhanced])
    | .error _ => (templateResponse message resp, [.agentCall enhanced])

/-- ToolhouseProvider.sendMessage: validate, require initialization,
append the message to the history, search MCP content, then generate the
response.  Errors escape unchanged because BaseAIProvider.handleError
rethrows the same error object.  Returns the result, the new state and
the network-call trace. -/
def sendMessage (st : ToolhouseState) (env : ToolhouseEnv) (message : AIMessage) :
    Except JsError AIResponse × ToolhouseState × List NetCall :=
  match validateMessage message with
  | some e => (.error e, st, [])
  | none =>
    if st.initialized = false then
      (.error (.providerRequest "toolhouse" "Provider not initialized"), st, [])
    else
      let st1 := { st with conversationHistory := st.conversationHistory ++ [message] }
      let searched := searchMCPContent env message
      match searched.1 with
      | .error e => (.error e, st1, searched.2)
      | .ok resp =>
        let generated := generateAIResponse st1 env message resp
        (.ok { content := generated.1,
               conversationId := st1.runId.getD env.generatedConversationId,
               source := "toolhouse" },
         st1, searched.2 ++ generated.2)

/-- ToolhouseProvider.getConversationHistory: a copy of the history. -/
def getConversationHistory (st : ToolhouseState) : List AIMessage :=
  st.conversationHistory

end ToolhouseProvider

/-- OpenRouterProvider state: whether initialize succeeded, the
configured model name, and the trailing conversation history. -/
structure OpenRouterState where
  initialized : Bool
  model : String
  conversationHistory : List AIMessage := []
deriving DecidableEq

/-- Oracle for the chat-completion call (ok (some content) is a good
payload, ok none a payload missing the content field) plus the locally
generated assistant-message and conversation ids. -/
structure OpenRouterEnv where
  apiOutcome : Except JsError (Option String)
  generatedMessageId : String
  generatedConversationId : String

namespace OpenRouterProvider

/-- The static system instruction of OpenRouterProvider.buildMessagesArray. -/
def systemInstruction : String :=
  "You are a helpful assistant with access to contextual information and resources. When relevant information or resources are provided, you can naturally reference them in your responses to help the user."

/-- OpenRouterProvider.buildMessagesArray: a system message only when the
history is empty, then the history without the current message, then the
current message. -/
def buildMessagesArray (history : List AIMessage) (currentMessage : AIMessage) :
    List OutMessage :=
  (if history.length = 0 then [{ role := .system, content := systemInstruction }] else [])
  ++ (history.filter (fun m => m.id != currentMessage.id)).map
      (fun m => { role := m.role, content := m.content : OutMessage })
  ++ [{ role := currentMessage.role, content := currentMessage.content }]

/-- OpenRouterProvider.sendMessage: validate, require initialization,
push the message, trim the history to the most recent 20, build the
messages array and make the API call; on success the assistant reply is
appended to the history.  Errors escape unchanged (handleError rethrows). -/
def sendMessage (st : OpenRouterState) (env : OpenRouterEnv) (message : AIMessage) :
    Except JsError AIResponse × OpenRouterState × List NetCall :=
  match validateMessage message with
  | some e => (.error e, st, [])
  | none =>
    if st.initialized = false then
      (.error (.providerRequest "openrouter" "Provider not initialized"), st, [])
    else
      let h1 := st.conversationHistory ++ [message]
      let h2 := if 20 < h1.length then h1.drop (h1.length - 20) else h1
      let messages := buildMessagesArray h2 message
      let call := NetCall.openRouterChat st.model messages
      match env.apiOutcome with
      | .error e => (.error e, { st with conversationHistory := h2 }, [call])
      | .ok none =>
          (.error (.providerRequest "openrouter" "Invalid response format from OpenRouter API"),
           { st with conversationHistory := h2 }, [call])
      | .ok (some content) =>
          let assistantMessage : AIMessage :=
            { id := env.generatedMessageId, content := content, role := .assistant }
          (.ok { content := content,
                 conversationId := env.generatedConversationId,
                 source := "openrouter" },
           { st with conversationHistory := h2 ++ [assistantMessage] }, [call])

end OpenRouterProvider

/-- The messages arrays of every chat-completion request in a trace,
concatenated: the outgoing messages of a sendMessage call. -/
def openRouterOutgoing (calls : List NetCall) : List OutMessage :=
  (calls.filterMap (fun c =>
    match c with
    | .openRouterChat _ messages => some messages
    | _ => none)).flatten

/-- The last n elements of a list, in order (JavaScript slice with a
negative index). -/
def lastN (n : Nat) (l : List α) : List α := l.drop (l.length - n)

/-- AdSearchResult (part_006), reduced to the fields the claims mention;
responseTime and timestamp are wall-clock only. -/
structure AdSearchResult where
  ads : List Ad
  query : String
deriving DecidableEq

/-- The JSON payload of a successful ad-search response: the results
field may be absent (the source reads data.results with a default). -/
structure RemoteAdData where
  results : Option (List Ad) := none
deriving DecidableEq

namespace SearchAdsUseCase

/-- SearchAdsUseCase.execute (part_006): a search result on success; any
failure (network rejection, non-ok status, bad body) is wrapped in an
AdSearchError carrying the cause. -/
def execute (remote : Except JsError RemoteAdData) (queries : List String) :
    Except JsError AdSearchResult :=
  match remote with
  | .ok d => .ok { ads := d.results.getD [], query := String.intercalate " " queries }
  | .error e => .error (.adSearchError ("Failed to search ads: " ++ e.message) (some e))

/-- The result record a successful search produces for given queries and
response data. -/
def mkResult (queries : List String) (d : RemoteAdData) : AdSearchResult :=
  { ads := d.results.getD [], query := String.intercalate " " queries }

end SearchAdsUseCase

/-- The state of the useAdSearch hook: current ads slot, last result,
rolling history, error message. -/
structure AdsState where
  ads : List Ad := []
  lastSearchResult : Option AdSearchResult := none
  searchHistory : List AdSearchResult := []
  errorMessage : Option String := none
deriving DecidableEq

namespace UseAdSearch

/-- useAdSearch.searchAds: on success replace the current ads slot, set
the last result, and append to the history keeping the last 10 records;
on failure record the error message, leave everything else unchanged and
rethrow. -/
def searchAds (st : AdsState) (remote : Except JsError RemoteAdData)
    (queries : List String) : Except JsError AdSearchResult × AdsState :=
  match SearchAdsUseCase.execute remote queries with
  | .ok result =>
      (.ok result,
       { ads := result.ads,
         lastSearchResult := some result,
         searchHistory := lastN 9 st.searchHistory ++ [result],
         errorMessage := none })
  | .error e =>
      (.error e, { st with errorMessage := some e.message })

/-- A sequence of searchAds calls whose remote outcomes all succeed,
folded over the hook state. -/
def runSuccessfulSearches (st : AdsState)
    (batches : List (List String × RemoteAdData)) : AdsState :=
  batches.foldl (fun s b => (searchAds s (.ok b.2) b.1).2) st

end UseAdSearch

/-- Events the orchestration service produces: the session-initialization
call, the ad-search call, and the adapter invocation. -/
inductive OrchCall where
  | sessionInit
  | adSearch (query : String) (conversationId : Option String)
  | providerSend (content : String)
deriving DecidableEq

/-- The orchestration state read and written by
ChatApplicationService.sendMessage: the session id held by the
conversation manager and the cached current-ads slot of the ad-search
hook (the only slot createFallbackResponse reads). -/
structure ChatState where
  conversationId : Option String := none
  cachedAds : List Ad := []
deriving DecidableEq

/-- Oracles for the three collaborator calls of one orchestrated turn,
plus the active adapter name that selects the strategy. -/
structure ChatEnv where
  providerName : String
  sessionInitOutcome : Except JsError String
  adSearchOutcome : Except JsError AdSearchResult
  providerOutcome : Except JsError AIResponse

/-- ChatMessageResult, reduced to the fields the claims mention; the
metadata map is represented by its strategy and error entries. -/
structure ChatMessageResult where
  content : String
  source : String
  ads : List Ad
  strategy : String
  errorMessage : Option String := none
deriving DecidableEq

namespace ChatApplicationService

/-- ChatApplicationService.buildEnhancedMessage: the manual-strategy
prompt embedding the retrieved ads. -/
def buildEnhancedMessage (userMessage : String) (ads : List Ad) : String :=
  "User message: " ++ userMessage ++ "\n\n" ++
  (if ads.length = 0 then "" else
    "Relevant advertisements that might be helpful:\n" ++
    String.join (ads.enum.map (fun p =>
      toString (p.1 + 1) ++ ". " ++ p.2.title ++ ": " ++ p.2.description ++ "\n")) ++
    "\n") ++
  "Please respond to the user's message naturally, and if relevant, you can mention the available resources or tools that might help them."

/-- ChatApplicationService.createFallbackResponse: the templated local
response echoing the input text, tagged with the fallback source and
carrying whatever ads are cached. -/
def createFallbackResponse (message : String) (e : JsError) (cachedAds : List Ad) :
    ChatMessageResult :=
  { content := "I received your message: \"" ++ message ++
      "\". I apologize, but I'm experiencing some technical difficulties right now. Please try again in a moment.",
    source := "fallback",
    ads := cachedAds,
    strategy := "fallback",
    errorMessage := some e.message }

/-- The strategy branch of sendMessage once a session exists: delegate
straight through for the toolhouse adapter, otherwise run the manual
ad-search plus prompt-augmentation strategy; any thrown error is caught
by the top-level handler and converted into the fallback response. -/
def sendAfterInit (st : ChatState) (env : ChatEnv) (message : String) :
    ChatMessageResult × ChatState × List OrchCall :=
  if env.providerName = "toolhouse" then
    match env.providerOutcome with
    | .ok r =>
        ({ content := r.content, source := "toolhouse_mcp", ads := [],
           strategy := "toolhouse_auto_mcp" }, st, [.providerSend message])
    | .error e =>
        (createFallbackResponse message e st.cachedAds, st, [.providerSend message])
  else
    match env.adSearchOutcome with
    | .error e =>
        (createFallbackResponse message e st.cachedAds, st,
         [.adSearch message st.conversationId])
    | .ok adSearchResult =>
        let st1 := { st with cachedAds := adSearchResult.ads }
        let enhanced := buildEnhancedMessage message adSearchResult.ads
        match env.providerOutcome with
        | .ok r =>
            ({ content := r.content, source := "manual_mcp", ads := adSearchResult.ads,
               strategy := "manual_mcp_enhancement" }, st1,
             [.adSearch message st.conversationId, .providerSend enhanced])
        | .error e =>
            (createFallbackResponse message e st1.cachedAds, st1,
             [.adSearch message st.conversationId, .providerSend enhanced])

/-- ChatApplicationService.sendMessage: ensure a session exists (awaiting
initializeConversation when none does), run the selected strategy, and
catch every thrown error into the fallback response.  Total by
construction: the returned value is always a ChatMessageResult. -/
def sendMessage (st : ChatState) (env : ChatEnv) (message : String) :
    ChatMessageResult × ChatState × List OrchCall :=
  match st.conversationId with
  | none =>
    (match env.sessionInitOutcome with
     | .error e =>
        (createFallbackResponse message e st.cachedAds, st, [.sessionInit])
     | .ok cid =>
        let st1 := { st with conversationId := some cid }
        let stepped := sendAfterInit st1 env message
        (stepped.1, stepped.2.1, .sessionInit :: stepped.2.2))
  | some _ => sendAfterInit st env message

end ChatApplicationService

/-- Ad preferences of a conversation-initialization request; the
revenue-vs-relevance weight is a number in the unit interval. -/
structure AdPreferences where
  ad_types : List String
  frequency : String
  revenue_vs_relevance : Rat
deriving DecidableEq

/-- ConversationInitConfig (useGeminiMCP.ts): ad preferences; the
optional context and metadata fields are never branched on. -/
structure ConversationInitConfig where
  ad_preferences : AdPreferences
deriving DecidableEq

/-- Result of InitializeConversationUseCase.execute, reduced to the
fields the claims mention. -/
structure ConversationResult where
  conversationId : String
  backendInitialized : Bool
  isHealthy : Bool
deriving DecidableEq

/-- Oracle for the session-initialization backend call (the adopted
conversation_id of a successful response, per the documented interface)
plus the inputs of the local fallback id generator. -/
structure InitEnv where
  backendOutcome : Except JsError String
  timestampMillis : Nat
  randomSuffix : String

namespace InitializeConversationUseCase

/-- InitializeConversationUseCase.generateConversationId: the local
fallback identifier built from the current time and a random suffix. -/
def generateConversationId (timestampMillis : Nat) (randomSuffix : String) : String :=
  "conv_" ++ toString timestampMillis ++ "_" ++ randomSuffix

/-- InitializeConversationUseCase.validateConfig: the presence and
array-shape checks of the source are enforced here by the types; the
numeric range check on revenue_vs_relevance remains. -/
def validateConfig (config : ConversationInitConfig) : Bool :=
  decide (0 ≤ config.ad_preferences.revenue_vs_relevance) &&
  decide (config.ad_preferences.revenue_vs_relevance ≤ 1)

/-- InitializeConversationUseCase.execute: adopt the server-returned id
on success; on remote failure fall back to the locally generated id with
backendInitialized false; both branches are healthy. -/
def execute (env : InitEnv) (_config : ConversationInitConfig) : ConversationResult :=
  match env.backendOutcome with
  | .ok conversationId =>
      { conversationId := conversationId, backendInitialized := true, isHealthy := true }
  | .error _ =>
      { conversationId := generateConversationId env.timestampMillis env.randomSuffix,
        backendInitialized := false, isHealthy := true }

end InitializeConversationUseCase

/-- AIConfig (configuration/types): the per-provider sub-configurations;
each sub-configuration payload is opaque to the factory and modelled as
a number. -/
structure AIConfig where
  toolhouse : Option Nat := none
  openrouter : Option Nat := none
  openai : Option Nat := none
  anthropic : Option Nat := none
  gemini : Option Nat := none
  custom : Option Nat := none
deriving DecidableEq

/-- The behaviour of a registered provider class: its identity token and
the outcomes of validateConfig and initialize on a given sub-config
(initOutcome some message means initialize threw with that message). -/
structure ProviderBeh where
  instanceToken : Nat
  validateOk : Nat → Bool
  initOutcome : Nat → Option String

/-- Calls the factory makes into a provider class, recorded as a trace. -/
inductive FactoryCall where
  | validateCall (providerType : String) (cfg : Nat)
  | initCall (providerType : String) (cfg : Nat)
deriving DecidableEq

namespace ProviderFactory

/-- ProviderFactory.extractProviderConfig: the switch-on-type selection
of the provider-specific sub-config; a missing sub-config throws. -/
def extractProviderConfig (providerType : String) (config : AIConfig) :
    Except JsError Nat :=
  let pick : Option Nat → String → Except JsError Nat := fun o name =>
    match o with
    | some c => .ok c
    | none => .error (.plain (name ++ " configuration is missing"))
  if providerType = "toolhouse" then pick config.toolhouse "Toolhouse"
  else if providerType = "openrouter" then pick config.openrouter "OpenRouter"
  else if providerType = "openai" then pick config.openai "OpenAI"
  else if providerType = "anthropic" then pick config.anthropic "Anthropic"
  else if providerType = "gemini" then pick config.gemini "Gemini"
  else if providerType = "custom" then pick config.custom "Custom"
  else .error (.plain ("Unknown provider type: " ++ providerType))

/-- ProviderFactory.create: return the cached instance when one exists;
otherwise look up the registered class, extract and validate the
sub-config, initialize, and cache.  Errors raised inside the try block
are wrapped in a ProviderInitializationError carrying their message (so
a validation failure is wrapped twice, as in the source); an unregistered
type throws before the try block and is not re-wrapped. -/
def create (registry : String → Option ProviderBeh)
    (activeProviders : List (String × Nat)) (providerType : String)
    (config : AIConfig) :
    Except JsError Nat × List (String × Nat) × List FactoryCall :=
  match activeProviders.lookup providerType with
  | some inst => (.ok inst, activeProviders, [])
  | none =>
    match registry providerType with
    | none =>
        (.error (.providerInit providerType
          ("Provider " ++ providerType ++ " is not registered")),
         activeProviders, [])
    | some beh =>
      match extractProviderConfig providerType config with
      | .error e =>
          (.error (.providerInit providerType e.message), activeProviders, [])
      | .ok providerConfig =>
        if beh.validateOk providerConfig = false then
          let inner : JsError := .providerInit providerType "Invalid configuration provided"
          (.error (.providerInit providerType inner.message), activeProviders,
           [.validateCall providerType providerConfig])
        else
          match beh.initOutcome providerConfig with
          | some msg =>
              (.error (.providerInit providerType msg), activeProviders,
               [.validateCall providerType providerConfig,
                .initCall providerType providerConfig])
          | none =>
              (.ok beh.instanceToken,
               (providerType, beh.instanceToken) :: activeProviders,
               [.validateCall providerType providerConfig,
                .initCall providerType providerConfig])

end ProviderFactory

/-- True when the result of a sendMessage call is a ProviderRequestError
(the RequestError class); false on success or on any other error class. -/
def resultIsRequestError (r : Except JsError AIResponse) : Bool :=
  match r with
  | .error e => e.isProviderRequest
  | .ok _ => false

/-! Concrete fixtures used by the closed witness and counterexample
statements below. -/

/-- A fresh orchestration state: no session, no cached ads. -/
def freshChatState : ChatState := {}

/-- An environment in which both the session initializer and the ad
search reject while the adapter itself would answer. -/
def fallbackEnv : ChatEnv :=
  { providerName := "openrouter",
    sessionInitOutcome := .error (.plain "session service offline"),
    adSearchOutcome := .error (.plain "ad service offline"),
    providerOutcome := .ok { content := "ok", conversationId := "c", source := "openrouter" } }

/-- An initialized Toolhouse adapter with empty history and no agent URL. -/
def toolhouseReadyState : ToolhouseState := { initialized := true }

/-- A Toolhouse environment whose remote calls would all succeed. -/
def toolhouseQuietEnv : ToolhouseEnv :=
  { mcpOutcome := .ok (some {}),
    agentOutcome := .ok "agent reply",
    generatedConversationId := "local_id" }

/-- A message carrying the malformed conversation id of the spec scenario. -/
def invalidCidMessage : AIMessage :=
  { id := "m1", content := "Tell me about AI tools", role := .user,
    metadata := { conversationId := some "not-a-uuid" } }

/-- The i-th prior turn of the 25-turn direct-completion scenario. -/
def indexedMessage (i : Nat) : AIMessage :=
  { id := "m" ++ toString i, content := "turn " ++ toString i, role := .user }

/-- Twenty-five prior turns. -/
def history25 : List AIMessage := (List.range 25).map indexedMessage

/-- An initialized direct-completion adapter holding the 25 prior turns. -/
def openRouterReadyState : OpenRouterState :=
  { initialized := true, model := "test-model", conversationHistory := history25 }

/-- A direct-completion environment whose API call succeeds. -/
def openRouterOkEnv : OpenRouterEnv :=
  { apiOutcome := .ok (some "answer"),
    generatedMessageId := "am1", generatedConversationId := "or1" }

/-- The new message of the 25-turn scenario. -/
def newTurnMessage : AIMessage :=
  { id := "m100", content := "latest question", role := .user }

/-- An orchestration state with an existing session. -/
def manualTurnState : ChatState :=
  { conversationId := some "11111111-2222-3333-4444-555555555555", cachedAds := [] }

/-- A manual-strategy environment whose ad search rejects while the
adapter itself would answer. -/
def manualFailEnv : ChatEnv :=
  { providerName := "openrouter",
    sessionInitOutcome := .ok "unused",
    adSearchOutcome := .error (.adSearchError "Failed to search ads: boom" (some (.plain "boom"))),
    providerOutcome := .ok { content := "model reply", conversationId := "c", source := "openrouter" } }

/-- Eleven successful search batches. -/
def elevenBatches : List (List String × RemoteAdData) :=
  (List.range 11).map (fun i => (["query " ++ toString i], { results := some [] }))

/-- A session-initialization environment whose backend call rejects. -/
def initFailEnv : InitEnv :=
  { backendOutcome := .error (.plain "backend down"),
    timestampMillis := 1700000000000, randomSuffix := "abc123def" }

/-- A valid ad-preference configuration. -/
def validInitConfig : ConversationInitConfig :=
  { ad_preferences :=
      { ad_types := ["hyperlink", "popup"], frequency := "normal",
        revenue_vs_relevance := 1/2 } }

/-- A whitespace-only message. -/
def blankMessage : AIMessage := { id := "b1", content := "   ", role := .user }

/-- An initialized direct-completion adapter with empty history. -/
def openRouterEmptyState : OpenRouterState := { initialized := true, model := "test-model" }

end SdkDemo

namespace SdkDemo

/-! Helper lemmas shared by the claim theorems. -/

/-- A middle string is a substring of any concatenation around it. -/
theorem data_infix_of_concat (pre mid suf : String) :
    mid.data <:+: (pre ++ mid ++ suf).data :=
  ⟨pre.data, suf.data, by simp [String.data_append]⟩

/-- A string with the conv underscore prefix is never empty. -/
theorem conv_prefixed_ne_empty (s : String) : ("conv_" ++ s) ≠ "" := by
  intro h
  have h2 := congrArg String.length h
  rw [String.length_append] at h2
  have h3 : ("conv_" : String).length = 5 := rfl
  have h4 : ("" : String).length = 0 := rfl
  omega

/-- lastN of a list no longer than the bound is the whole list. -/
theorem lastN_of_le (n : Nat) (l : List α) (h : l.length ≤ n) : lastN n l = l := by
  simp [lastN, Nat.sub_eq_zero_of_le h]

/-- The length of lastN is the minimum of the bound and the length. -/
theorem length_lastN (n : Nat) (l : List α) : (lastN n l).length = min n l.length := by
  simp [lastN]
  omega

/-- Appending one element to a lastN window widens it by one slot. -/
theorem lastN_append_singleton (n : Nat) (l : List α) (a : α) :
    lastN (n + 1) (l ++ [a]) = lastN n l ++ [a] := by
  simp only [lastN, List.length_append, List.length_singleton]
  have h1 : l.length + 1 - (n + 1) = l.length - n := by omega
  rw [h1, List.drop_append_of_le_length (by omega)]

/-- Dropping past a prefix reaches into the suffix. -/
theorem drop_length_add (l m : List α) (j : Nat) :
    (l ++ m).drop (l.length + j) = m.drop j := by
  rw [← List.drop_drop, List.drop_left]

/-- Taking the last n of a list whose prefix beyond its own last n was
already discarded gives the same window. -/
theorem lastN_lastN_append (n : Nat) (l m : List α) :
    lastN n (lastN n l ++ m) = lastN n (l ++ m) := by
  by_cases h : l.length ≤ n
  · rw [lastN_of_le n l h]
  · push_neg at h
    have hlen : (lastN n l).length = n := by rw [length_lastN]; omega
    have hdec : l.take (l.length - n) ++ lastN n l = l := by
      simp only [lastN]
      exact List.take_append_drop (l.length - n) l
    have harith : l.length + m.length - n = (l.length - n) + ((lastN n l ++ m).length - n) := by
      rw [List.length_append, hlen]
      omega
    calc lastN n (lastN n l ++ m)
        = (lastN n l ++ m).drop ((lastN n l ++ m).length - n) := rfl
      _ = (l.take (l.length - n) ++ (lastN n l ++ m)).drop
            ((l.take (l.length - n)).length + ((lastN n l ++ m).length - n)) := by
            rw [drop_length_add]
      _ = (l ++ m).drop (l.length + m.length - n) := by
            rw [List.length_take, ← List.append_assoc, hdec]
            congr 1
            · rw [harith]
              congr 1
              omega
      _ = lastN n (l ++ m) := by simp [lastN]

end SdkDemo

namespace SdkDemo

/-- C1: for every input text, if both the session initialization and the
ad search call throw, ChatApplicationService.sendMessage still resolves
(the embedding is total) with a result whose source is the fallback tag
and whose content contains the input text verbatim. -/
theorem chat_sendMessage_fallback_guarantee
    (st : ChatState) (env : ChatEnv) (message : String)
    (hconv : st.conversationId = none) (e1 e2 : JsError)
    (hinit : env.sessionInitOutcome = .error e1)
    (_had : env.adSearchOutcome = .error e2) :
    (ChatApplicationService.sendMessage st env message).1.source = "fallback" ∧
    message.data <:+: (ChatApplicationService.sendMessage st env message).1.content.data := by
  constructor
  · simp [ChatApplicationService.sendMessage, hconv, hinit,
      ChatApplicationService.createFallbackResponse]
  · simp only [ChatApplicationService.sendMessage, hconv, hinit,
      ChatApplicationService.createFallbackResponse]
    exact data_infix_of_concat "I received your message: \"" message
      "\". I apologize, but I'm experiencing some technical difficulties right now. Please try again in a moment."

/-- Witness for C1 at a concrete state, environment and text. -/
theorem chat_sendMessage_fallback_guarantee_witness :
    (ChatApplicationService.sendMessage freshChatState fallbackEnv "hello").1.source = "fallback" ∧
    "hello".data <:+:
      (ChatApplicationService.sendMessage freshChatState fallbackEnv "hello").1.content.data :=
  chat_sendMessage_fallback_guarantee freshChatState fallbackEnv "hello" rfl
    (.plain "session service offline") (.plain "ad service offline") rfl rfl

/-- C5: for every searchAds call whose remote query fails, the call
fails with an AdSearchError wrapping the underlying cause, and the
current ads slot (together with the last result and the history) is
exactly what it was before the call. -/
theorem searchAds_failure_wraps_and_preserves_ads
    (st : AdsState) (e : JsError) (queries : List String) :
    (UseAdSearch.searchAds st (.error e) queries).1 =
      .error (.adSearchError ("Failed to search ads: " ++ e.message) (some e)) ∧
    (UseAdSearch.searchAds st (.error e) queries).2.ads = st.ads ∧
    (UseAdSearch.searchAds st (.error e) queries).2.searchHistory = st.searchHistory ∧
    (UseAdSearch.searchAds st (.error e) queries).2.lastSearchResult = st.lastSearchResult := by
  simp [UseAdSearch.searchAds, SearchAdsUseCase.execute]

/-- C8: a message with empty or whitespace-only content is rejected by
both adapters with the validation error, and the network-call trace of
both calls is empty. -/
theorem adapters_reject_blank_content_before_network
    (tst : ToolhouseState) (tenv : ToolhouseEnv)
    (ost : OpenRouterState) (oenv : OpenRouterEnv) (msg : AIMessage)
    (hblank : jsTrim msg.content = "") :
    (ToolhouseProvider.sendMessage tst tenv msg).1 =
      .error (.plain "Message content cannot be empty") ∧
    (ToolhouseProvider.sendMessage tst tenv msg).2.2 = [] ∧
    (OpenRouterProvider.sendMessage ost oenv msg).1 =
      .error (.plain "Message content cannot be empty") ∧
    (OpenRouterProvider.sendMessage ost oenv msg).2.2 = [] := by
  refine ⟨?_, ?_, ?_, ?_⟩ <;>
    simp [ToolhouseProvider.sendMessage, OpenRouterProvider.sendMessage,
      validateMessage, hblank]

/-- Witness for C8 at a concrete whitespace-only message. -/
theorem adapters_reject_blank_content_before_network_witness :
    (ToolhouseProvider.sendMessage toolhouseReadyState toolhouseQuietEnv blankMessage).1 =
      .error (.plain "Message content cannot be empty") ∧
    (ToolhouseProvider.sendMessage toolhouseReadyState toolhouseQuietEnv blankMessage).2.2 = [] ∧
    (OpenRouterProvider.sendMessage openRouterEmptyState openRouterOkEnv blankMessage).1 =
      .error (.plain "Message content cannot be empty") ∧
    (OpenRouterProvider.sendMessage openRouterEmptyState openRouterOkEnv blankMessage).2.2 = [] :=
  adapters_reject_blank_content_before_network toolhouseReadyState toolhouseQuietEnv
    openRouterEmptyState openRouterOkEnv blankMessage (by decide)

/-- C10: once the factory cache holds an instance for a provider type,
create returns that instance with the cache unchanged and an empty
provider-call trace, for every configuration argument. -/
theorem providerFactory_create_returns_cached_instance
    (registry : String → Option ProviderBeh) (activeProviders : List (String × Nat))
    (providerType : String) (config : AIConfig) (inst : Nat)
    (hcached : activeProviders.lookup providerType = some inst) :
    ProviderFactory.create registry activeProviders providerType config =
      (.ok inst, activeProviders, []) := by
  simp [ProviderFactory.create, hcached]

/-- Witness for C10 at a concrete cache and a differing configuration. -/
theorem providerFactory_create_returns_cached_instance_witness :
    ProviderFactory.create (fun _ => none) [("toolhouse", 7)] "toolhouse"
      { toolhouse := some 3 } = (.ok 7, [("toolhouse", 7)], []) :=
  providerFactory_create_returns_cached_instance (fun _ => none) [("toolhouse", 7)]
    "toolhouse" { toolhouse := some 3 } 7 (by decide)

end SdkDemo

namespace SdkDemo

/-- C2 counterexample: at the spec scenario itself (conversation id
"not-a-uuid", initialized adapter, nonblank content) sendMessage fails
fast with a plain Error, not with a ProviderRequestError as the claim
states, and makes no network call. -/
theorem toolhouse_invalid_cid_error_class_counterexample :
    (ToolhouseProvider.sendMessage toolhouseReadyState toolhouseQuietEnv invalidCidMessage).1 =
      .error (.plain "Invalid conversation ID format") ∧
    resultIsRequestError
      (ToolhouseProvider.sendMessage toolhouseReadyState toolhouseQuietEnv invalidCidMessage).1 =
      false ∧
    (ToolhouseProvider.sendMessage toolhouseReadyState toolhouseQuietEnv invalidCidMessage).2.2 =
      [] := by
  refine ⟨rfl, rfl, rfl⟩

/-- C2 amended: a message on an initialized adapter with nonblank
content whose metadata.conversationId is absent or not a canonical UUID
fails with one of the two plain validation errors — not with a
ProviderRequestError — and no network call is attempted. -/
theorem toolhouse_sendMessage_invalid_cid_no_network
    (st : ToolhouseState) (env : ToolhouseEnv) (msg : AIMessage)
    (hinit : st.initialized = true) (hcontent : jsTrim msg.content ≠ "")
    (hcid : ∀ cid, msg.metadata.conversationId = some cid →
      isValidConversationId cid = false) :
    ((ToolhouseProvider.sendMessage st env msg).1 =
        .error (.plain "Conversation ID is required for MCP integration") ∨
     (ToolhouseProvider.sendMessage st env msg).1 =
        .error (.plain "Invalid conversation ID format")) ∧
    resultIsRequestError (ToolhouseProvider.sendMessage st env msg).1 = false ∧
    (ToolhouseProvider.sendMessage st env msg).2.2 = [] := by
  cases hm : msg.metadata.conversationId with
  | none =>
    refine ⟨Or.inl ?_, ?_, ?_⟩ <;>
      simp [ToolhouseProvider.sendMessage, validateMessage, hcontent, hinit,
        ToolhouseProvider.searchMCPContent, hm, resultIsRequestError,
        JsError.isProviderRequest]
  | some cid =>
    have hbad := hcid cid hm
    refine ⟨Or.inr ?_, ?_, ?_⟩ <;>
      simp [ToolhouseProvider.sendMessage, validateMessage, hcontent, hinit,
        ToolhouseProvider.searchMCPContent, hm, hbad, resultIsRequestError,
        JsError.isProviderRequest]

/-- Witness for the amended C2 at the concrete scenario message. -/
theorem toolhouse_sendMessage_invalid_cid_no_network_witness :
    (((ToolhouseProvider.sendMessage toolhouseReadyState toolhouseQuietEnv invalidCidMessage).1 =
        .error (.plain "Conversation ID is required for MCP integration") ∨
      (ToolhouseProvider.sendMessage toolhouseReadyState toolhouseQuietEnv invalidCidMessage).1 =
        .error (.plain "Invalid conversation ID format")) ∧
     resultIsRequestError
       (ToolhouseProvider.sendMessage toolhouseReadyState toolhouseQuietEnv invalidCidMessage).1 =
       false ∧
     (ToolhouseProvider.sendMessage toolhouseReadyState toolhouseQuietEnv invalidCidMessage).2.2 =
       []) :=
  toolhouse_sendMessage_invalid_cid_no_network toolhouseReadyState toolhouseQuietEnv
    invalidCidMessage rfl (by decide)
    (fun cid h => by
      simp only [invalidCidMessage] at h
      cases h
      decide)

/-- C9 counterexample: a whitespace-only message fails sendMessage, yet
the conversation history afterwards does not contain it — the claim that
the history always contains the failed message is false. -/
theorem toolhouse_history_rollback_counterexample :
    (ToolhouseProvider.sendMessage toolhouseReadyState toolhouseQuietEnv blankMessage).1 =
      .error (.plain "Message content cannot be empty") ∧
    ¬ (blankMessage ∈ ToolhouseProvider.getConversationHistory
        (ToolhouseProvider.sendMessage toolhouseReadyState toolhouseQuietEnv blankMessage).2.1) := by
  refine ⟨rfl, ?_⟩
  decide

/-- C9 amended: a message that passes validation on an initialized
adapter is appended to the history before ad retrieval, so the history
after sendMessage always contains it — whether the call fails or not. -/
theorem toolhouse_history_keeps_failed_message
    (st : ToolhouseState) (env : ToolhouseEnv) (msg : AIMessage)
    (hinit : st.initialized = true) (hcontent : jsTrim msg.content ≠ "") :
    ToolhouseProvider.getConversationHistory
      (ToolhouseProvider.sendMessage st env msg).2.1 =
      st.conversationHistory ++ [msg] ∧
    msg ∈ ToolhouseProvider.getConversationHistory
      (ToolhouseProvider.sendMessage st env msg).2.1 := by
  have hstate : (ToolhouseProvider.sendMessage st env msg).2.1 =
      { st with conversationHistory := st.conversationHistory ++ [msg] } := by
    cases hs : (ToolhouseProvider.searchMCPContent env msg).1 <;>
      simp [ToolhouseProvider.sendMessage, validateMessage, hcontent, hinit, hs]
  rw [hstate]
  simp [ToolhouseProvider.getConversationHistory]

/-- Witness for the amended C9 at a failing concrete call (invalid
conversation id): the failed message is in the history afterwards. -/
theorem toolhouse_history_keeps_failed_message_witness :
    ToolhouseProvider.getConversationHistory
      (ToolhouseProvider.sendMessage toolhouseReadyState toolhouseQuietEnv invalidCidMessage).2.1 =
      [] ++ [invalidCidMessage] ∧
    invalidCidMessage ∈ ToolhouseProvider.getConversationHistory
      (ToolhouseProvider.sendMessage toolhouseReadyState toolhouseQuietEnv invalidCidMessage).2.1 :=
  toolhouse_history_keeps_failed_message toolhouseReadyState toolhouseQuietEnv
    invalidCidMessage rfl (by decide)

/-- C4 counterexample: when the manual-strategy ad search rejects while
the adapter itself would answer, the turn is completed by the top-level
fallback (source "fallback") and the adapter is never invoked — the
trace holds only the ad-search call — contradicting the claim that the
turn completes with the adapter using an empty ad list. -/
theorem chat_manual_adsearch_error_counterexample :
    (ChatApplicationService.sendMessage manualTurnState manualFailEnv "hi").1.source =
      "fallback" ∧
    (ChatApplicationService.sendMessage manualTurnState manualFailEnv "hi").2.2 =
      [OrchCall.adSearch "hi" (some "11111111-2222-3333-4444-555555555555")] := by
  refine ⟨rfl, rfl⟩

/-- C4 amended: when the manual-strategy ad search fails, sendMessage
aborts the manual strategy for that turn and returns the top-level
fallback response built from the cached ads; the adapter is not called. -/
theorem chat_manual_adsearch_error_falls_back
    (st : ChatState) (env : ChatEnv) (message : String) (c : String) (e : JsError)
    (hconv : st.conversationId = some c)
    (hname : env.providerName ≠ "toolhouse")
    (had : env.adSearchOutcome = .error e) :
    (ChatApplicationService.sendMessage st env message).1 =
      ChatApplicationService.createFallbackResponse message e st.cachedAds ∧
    (ChatApplicationService.sendMessage st env message).2.2 =
      [OrchCall.adSearch message (some c)] := by
  constructor <;>
    simp [ChatApplicationService.sendMessage, hconv,
      ChatApplicationService.sendAfterInit, hname, had]

/-- Witness for the amended C4 at the concrete manual-strategy scenario. -/
theorem chat_manual_adsearch_error_falls_back_witness :
    (ChatApplicationService.sendMessage manualTurnState manualFailEnv "hi").1 =
      ChatApplicationService.createFallbackResponse "hi"
        (.adSearchError "Failed to search ads: boom" (some (.plain "boom"))) [] ∧
    (ChatApplicationService.sendMessage manualTurnState manualFailEnv "hi").2.2 =
      [OrchCall.adSearch "hi" (some "11111111-2222-3333-4444-555555555555")] :=
  chat_manual_adsearch_error_falls_back manualTurnState manualFailEnv "hi"
    "11111111-2222-3333-4444-555555555555"
    (.adSearchError "Failed to search ads: boom" (some (.plain "boom")))
    rfl (by decide) rfl

end SdkDemo

namespace SdkDemo

/-- The outgoing messages of the single chat-completion request of one
trace element. -/
theorem openRouterOutgoing_single (model : String) (messages : List OutMessage) :
    openRouterOutgoing [NetCall.openRouterChat model messages] = messages := by
  simp [openRouterOutgoing]

/-- A validated sendMessage on an initialized direct-completion adapter
makes exactly one chat-completion call, whose messages array is built
from the pushed-and-trimmed history, whatever the API outcome. -/
theorem openrouter_trace_eq (st : OpenRouterState) (env : OpenRouterEnv)
    (msg : AIMessage) (hinit : st.initialized = true)
    (hcontent : jsTrim msg.content ≠ "") :
    (OpenRouterProvider.sendMessage st env msg).2.2 =
      [NetCall.openRouterChat st.model (OpenRouterProvider.buildMessagesArray
        (if 20 < (st.conversationHistory ++ [msg]).length
         then (st.conversationHistory ++ [msg]).drop
                ((st.conversationHistory ++ [msg]).length - 20)
         else st.conversationHistory ++ [msg]) msg)] := by
  cases ha : env.apiOutcome with
  | error e =>
    simp [OpenRouterProvider.sendMessage, validateMessage, hcontent, hinit, ha]
  | ok o =>
    cases o <;>
      simp [OpenRouterProvider.sendMessage, validateMessage, hcontent, hinit, ha]

/-- C3 counterexample: with 25 prior turns and a new message, the
outgoing messages array has exactly 20 entries and none of them is a
system message — so it cannot be the claimed 20 history messages plus a
leading static system-instruction message. -/
theorem openrouter_system_message_missing_counterexample :
    (openRouterOutgoing
      (OpenRouterProvider.sendMessage openRouterReadyState openRouterOkEnv
        newTurnMessage).2.2).length = 20 ∧
    (openRouterOutgoing
      (OpenRouterProvider.sendMessage openRouterReadyState openRouterOkEnv
        newTurnMessage).2.2).all (fun m => m.role != Role.system) = true := by
  refine ⟨rfl, rfl⟩

/-- C3 amended: with 25 prior turns (all with ids different from the new
message) the outgoing messages array is exactly the 19 most recent prior
messages followed by the new message — 20 entries, with no leading
system-instruction message, because the current message is pushed into
the history before the array is built, so the empty-history branch that
would add the system message never fires. -/
theorem openrouter_outgoing_after_25_turns
    (st : OpenRouterState) (env : OpenRouterEnv) (msg : AIMessage)
    (hinit : st.initialized = true) (hlen : st.conversationHistory.length = 25)
    (hid : ∀ m ∈ st.conversationHistory, m.id ≠ msg.id)
    (hcontent : jsTrim msg.content ≠ "") :
    openRouterOutgoing (OpenRouterProvider.sendMessage st env msg).2.2 =
      (st.conversationHistory.drop 6 ++ [msg]).map
        (fun m => { role := m.role, content := m.content : OutMessage }) ∧
    (openRouterOutgoing (OpenRouterProvider.sendMessage st env msg).2.2).length = 20 := by
  have htrace := openrouter_trace_eq st env msg hinit hcontent
  have hlen1 : (st.conversationHistory ++ [msg]).length = 26 := by
    simp [hlen]
  have hcond : 20 < (st.conversationHistory ++ [msg]).length := by
    omega
  have htrim : (if 20 < (st.conversationHistory ++ [msg]).length
      then (st.conversationHistory ++ [msg]).drop
            ((st.conversationHistory ++ [msg]).length - 20)
      else st.conversationHistory ++ [msg]) =
      st.conversationHistory.drop 6 ++ [msg] := by
    rw [if_pos hcond, hlen1]
    exact List.drop_append_of_le_length (by omega)
  have hfilter : (st.conversationHistory.drop 6 ++ [msg]).filter
      (fun m => m.id != msg.id) = st.conversationHistory.drop 6 := by
    rw [List.filter_append]
    have h1 : (st.conversationHistory.drop 6).filter (fun m => m.id != msg.id) =
        st.conversationHistory.drop 6 :=
      List.filter_eq_self.mpr (fun m hm => by
        have hne := hid m (List.mem_of_mem_drop hm)
        simpa [bne_iff_ne] using hne)
    have h2 : [msg].filter (fun m => m.id != msg.id) = [] := by simp
    rw [h1, h2, List.append_nil]
  have hbuild : OpenRouterProvider.buildMessagesArray
      (st.conversationHistory.drop 6 ++ [msg]) msg =
      (st.conversationHistory.drop 6 ++ [msg]).map
        (fun m => { role := m.role, content := m.content : OutMessage }) := by
    unfold OpenRouterProvider.buildMessagesArray
    rw [if_neg (by simp), hfilter, List.map_append]
    simp
  rw [htrace, htrim, openRouterOutgoing_single, hbuild]
  refine ⟨rfl, ?_⟩
  simp [hlen]

/-- Witness for the amended C3 at the concrete 25-turn scenario. -/
theorem openrouter_outgoing_after_25_turns_witness :
    openRouterOutgoing
      (OpenRouterProvider.sendMessage openRouterReadyState openRouterOkEnv
        newTurnMessage).2.2 =
      (openRouterReadyState.conversationHistory.drop 6 ++ [newTurnMessage]).map
        (fun m => { role := m.role, content := m.content : OutMessage }) ∧
    (openRouterOutgoing
      (OpenRouterProvider.sendMessage openRouterReadyState openRouterOkEnv
        newTurnMessage).2.2).length = 20 :=
  openrouter_outgoing_after_25_turns openRouterReadyState openRouterOkEnv
    newTurnMessage rfl (by decide) (by decide) (by decide)

/-- A successful searchAds call appends its result record to the last
nine retained history records. -/
theorem searchAds_ok_history (st : AdsState) (qs : List String) (d : RemoteAdData) :
    ((UseAdSearch.searchAds st (.ok d) qs).2).searchHistory =
      lastN 9 st.searchHistory ++ [SearchAdsUseCase.mkResult qs d] := rfl

/-- The history after a run of successful searches, as a fold of the
append-and-retain step. -/
theorem runSearches_history (batches : List (List String × RemoteAdData)) :
    ∀ st : AdsState,
      (UseAdSearch.runSuccessfulSearches st batches).searchHistory =
        batches.foldl (fun h b => lastN 9 h ++ [SearchAdsUseCase.mkResult b.1 b.2])
          st.searchHistory := by
  induction batches with
  | nil => intro st; rfl
  | cons b bs ih =>
    intro st
    simp only [UseAdSearch.runSuccessfulSearches, List.foldl_cons] at *
    rw [ih ((UseAdSearch.searchAds st (.ok b.2) b.1).2), searchAds_ok_history]

/-- The ten-slot window equality specialized to the nine-plus-one step. -/
theorem lastN_ten_append (l : List α) (a : α) :
    lastN 10 (l ++ [a]) = lastN 9 l ++ [a] :=
  lastN_append_singleton 9 l a

/-- Folding the append-and-retain step from a short accumulator keeps
exactly the last ten produced records. -/
theorem foldl_lastN_step (batches : List (List String × RemoteAdData)) :
    ∀ acc : List AdSearchResult, acc.length ≤ 10 →
      batches.foldl (fun h b => lastN 9 h ++ [SearchAdsUseCase.mkResult b.1 b.2]) acc =
        lastN 10 (acc ++ batches.map (fun b => SearchAdsUseCase.mkResult b.1 b.2)) := by
  induction batches with
  | nil =>
    intro acc hacc
    simp [lastN_of_le 10 acc hacc]
  | cons b bs ih =>
    intro acc hacc
    simp only [List.foldl_cons, List.map_cons]
    rw [ih (lastN 9 acc ++ [SearchAdsUseCase.mkResult b.1 b.2]) ?hshort]
    case hshort =>
      rw [List.length_append, length_lastN, List.length_singleton]
      omega
    rw [← lastN_ten_append, lastN_lastN_append, List.append_assoc,
      List.singleton_append]

/-- C6: after more than ten successful searches from a fresh history,
the search history holds exactly the ten most recent result records, in
order (each success appended one record, evicting the oldest first). -/
theorem searchHistory_bounded_fifo
    (st : AdsState) (batches : List (List String × RemoteAdData))
    (hempty : st.searchHistory = []) (hlen : 10 < batches.length) :
    (UseAdSearch.runSuccessfulSearches st batches).searchHistory =
      (batches.map (fun b => SearchAdsUseCase.mkResult b.1 b.2)).drop
        (batches.length - 10) ∧
    (UseAdSearch.runSuccessfulSearches st batches).searchHistory.length = 10 := by
  have h1 := runSearches_history batches st
  rw [hempty, foldl_lastN_step batches [] (by simp), List.nil_append] at h1
  constructor
  · rw [h1]
    simp [lastN]
  · rw [h1, length_lastN]
    simp
    omega

/-- Witness for C6 at eleven concrete successful searches. -/
theorem searchHistory_bounded_fifo_witness :
    (UseAdSearch.runSuccessfulSearches {} elevenBatches).searchHistory =
      (elevenBatches.map (fun b => SearchAdsUseCase.mkResult b.1 b.2)).drop
        (elevenBatches.length - 10) ∧
    (UseAdSearch.runSuccessfulSearches {} elevenBatches).searchHistory.length = 10 :=
  searchHistory_bounded_fifo {} elevenBatches rfl (by decide)

/-- C7: for every valid ad-preference configuration, under the
documented backend contract that server-issued identifiers are canonical
UUIDs, initializeConversation either returns a canonical UUID with
backendInitialized true, or a nonempty locally generated identifier with
backendInitialized false; the embedding is total, so it never returns a
missing identifier on success. -/
theorem initializeConversation_identifier_shape
    (env : InitEnv) (config : ConversationInitConfig)
    (_hvalid : InitializeConversationUseCase.validateConfig config = true)
    (hbackend : ∀ s, env.backendOutcome = Except.ok s →
      isValidConversationId s = true) :
    (isValidConversationId
        (InitializeConversationUseCase.execute env config).conversationId = true ∧
      (InitializeConversationUseCase.execute env config).backendInitialized = true) ∨
    ((InitializeConversationUseCase.execute env config).conversationId ≠ "" ∧
      (InitializeConversationUseCase.execute env config).backendInitialized = false) := by
  cases h : env.backendOutcome with
  | ok s =>
    left
    constructor
    · have hs := hbackend s h
      simp [InitializeConversationUseCase.execute, h, hs]
    · simp [InitializeConversationUseCase.execute, h]
  | error e =>
    right
    constructor
    · simp only [InitializeConversationUseCase.execute, h,
        InitializeConversationUseCase.generateConversationId]
      exact conv_prefixed_ne_empty _
    · simp [InitializeConversationUseCase.execute, h]

/-- Witness for C7 at a failing backend and a valid configuration. -/
theorem initializeConversation_identifier_shape_witness :
    (isValidConversationId
        (InitializeConversationUseCase.execute initFailEnv validInitConfig).conversationId = true ∧
      (InitializeConversationUseCase.execute initFailEnv validInitConfig).backendInitialized = true) ∨
    ((InitializeConversationUseCase.execute initFailEnv validInitConfig).conversationId ≠ "" ∧
      (InitializeConversationUseCase.execute initFailEnv validInitConfig).backendInitialized = false) :=
  initializeConversation_identifier_shape initFailEnv validInitConfig
    (by
      simp only [InitializeConversationUseCase.validateConfig, validInitConfig,
        Bool.and_eq_true, decide_eq_true_eq]
      constructor <;> norm_num)
    (fun s h => nomatch h)

end SdkDemo

namespace SdkDemo

/-- Witness for C5 at a concrete state and failing remote call. -/
theorem searchAds_failure_wraps_and_preserves_ads_witness :
    (UseAdSearch.searchAds
      { ads := [], lastSearchResult := none, searchHistory := [], errorMessage := none }
      (.error (.plain "MCP server responded with 500: oops")) ["hello"]).1 =
      .error (.adSearchError
        ("Failed to search ads: " ++ (JsError.plain "MCP server responded with 500: oops").message)
        (some (.plain "MCP server responded with 500: oops"))) ∧
    (UseAdSearch.searchAds
      { ads := [], lastSearchResult := none, searchHistory := [], errorMessage := none }
      (.error (.plain "MCP server responded with 500: oops")) ["hello"]).2.ads = [] ∧
    (UseAdSearch.searchAds
      { ads := [], lastSearchResult := none, searchHistory := [], errorMessage := none }
      (.error (.plain "MCP server responded with 500: oops")) ["hello"]).2.searchHistory = [] ∧
    (UseAdSearch.searchAds
      { ads := [], lastSearchResult := none, searchHistory := [], errorMessage := none }
      (.error (.plain "MCP server responded with 500: oops")) ["hello"]).2.lastSearchResult =
      none :=
  searchAds_failure_wraps_and_preserves_ads
    { ads := [], lastSearchResult := none, searchHistory := [], errorMessage := none }
    (.plain "MCP server responded with 500: oops") ["hello"]

end SdkDemo
